import Mathlib

/-!
Verification development for the `cam-tests` repository.

The repository's Python files (`generate_test_suite.py`, `tests.py`,
`output.py`, `parallel_tests.py`) are generators that emit the scripts
actually run on the device:

* `monitor_metrics.sh`  — the Metrics Sampler: writes a CSV header and then
  one sample row per loop iteration while `SECONDS < END`;
* `test_video_capture.sh` — the Test Matrix Runner: dependency check, device
  detection, a per-job body (start sampler, skip check, `timeout` ffmpeg,
  error-log handling, kill sampler);
* `summarize_results.py` — the Result Summarizer (pandas over the `.log`
  files), and `output.py`'s HTML report variant.

This file is a shallow embedding of those generated scripts (the authoritative
version is the one emitted by `src/generate_test_suite.py`).  External
processes (ffmpeg, v4l2-ctl, top, free, iostat, the wall clock) are modelled
as explicit inputs: readings, per-iteration clock costs, capture outcomes,
device probe results.  Numeric CSV values are modelled as rationals.
-/

namespace CamTests

/-- One best-effort metrics reading (`cpu_percent,mem_used_mb,disk_write_kbps`).
The shell substitutes `0` for any reading it cannot obtain, so the values are
arbitrary rationals supplied by the environment. -/
structure Reading where
  cpu : ℚ
  mem : ℚ
  disk : ℚ
deriving DecidableEq

/-- One line of the sampler's output file: the fixed header
`timestamp,cpu_percent,mem_used_mb,disk_write_kbps`, or a sample row whose
first field is the `date +%s` timestamp. -/
inductive MetricsLine where
  | header
  | sample (ts : Nat) (r : Reading)
deriving DecidableEq

/-- The timestamp field of a line (`none` for the header). -/
def lineTimestamp : MetricsLine → Option Nat
  | MetricsLine.header => none
  | MetricsLine.sample ts _ => some ts

/-- The timestamps of the sample rows, in file order. -/
def sampleTimestamps (l : List MetricsLine) : List Nat :=
  l.filterMap lineTimestamp

/-- The `while [ $SECONDS -lt $END ]` loop of `monitor_metrics.sh`.
`elapsed` is the current value of `SECONDS` minus its value when `END` was
computed, `endT` the duration, `readings i` what `top`/`free`/`iostat`
return on iteration `i`, and `cost i` how many whole seconds of `SECONDS`
iteration `i` consumes (its `sleep 1` guarantees `1 ≤ cost i`; the metric
commands, e.g. the two-cycle `iostat -d 1 2` call, can add more).  The row's
timestamp is `t0 + elapsed`: `date +%s` advances in lockstep with `SECONDS`,
`t0` being the epoch time at which the loop began.  `fuel` bounds the
recursion; with every `cost i ≥ 1` a fuel of `endT` is never exhausted. -/
def monitorLoop (readings : Nat → Reading) (cost : Nat → Nat) (t0 endT : Nat) :
    Nat → Nat → Nat → List MetricsLine
  | 0, _, _ => []
  | fuel + 1, elapsed, i =>
    if elapsed < endT then
      MetricsLine.sample (t0 + elapsed) (readings i) ::
        monitorLoop readings cost t0 endT fuel (elapsed + cost i) (i + 1)
    else []

/-- The whole output file of `monitor_metrics.sh duration out.log`: the header
line written with `>`, then the rows appended by the loop. -/
def monitorMetrics (readings : Nat → Reading) (cost : Nat → Nat)
    (t0 duration : Nat) : List MetricsLine :=
  MetricsLine.header :: monitorLoop readings cost t0 duration duration 0 0

/-- Terminal state of one Job of the Test Matrix Runner. -/
inductive JobStatus where
  | skipped
  | succeeded
  | failed
deriving DecidableEq

/-- What the capture command (`timeout $((DURATION+10)) ffmpeg ...`) did:
whether it exited zero within the bound, whether it wrote the output media
file, and the lines it sent to stderr (redirected to `$OUTFILE.error.log`). -/
structure CaptureOutcome where
  exitOk : Bool
  wroteOutput : Bool
  stderrLines : List String
deriving DecidableEq

/-- The filesystem and bookkeeping state left by one iteration of the per-job
body of `test_video_capture.sh` (its deterministic name prefix:
`basename_format_encoder_timestamp`). -/
structure JobResult where
  status : JobStatus
  /-- the metrics `.log` file written by the sampler exists -/
  logFileExists : Bool
  /-- the `.mp4`/`.avi` output media file exists -/
  outputFileExists : Bool
  /-- the `.error.log` file exists after the iteration -/
  errorLogExists : Bool
  /-- its content (the capture command's stderr) -/
  errorLogLines : List String
  /-- `FILE_SIZE=$(du -h "$OUTFILE" | cut -f1)` was executed -/
  sizeRecorded : Bool
  /-- the seconds bound passed to `timeout` for the capture command
  (`none` when the capture step was skipped) -/
  captureTimeLimit : Option Nat
  /-- the duration argument passed to `./monitor_metrics.sh`
  (`none` when the sampler was not started) -/
  samplerDurationArg : Option Nat
  /-- `[ -n "$MONITOR_PID" ] && kill "$MONITOR_PID" 2>/dev/null || true`
  was reached with a non-empty `MONITOR_PID` (the `|| true` makes the kill
  tolerate a sampler that already exited, so the attempt never aborts) -/
  samplerKillAttempted : Bool
deriving DecidableEq

/-- One iteration of the inner loop of `test_video_capture.sh`
(the body from `TOTAL_TESTS=$((TOTAL_TESTS + 1))` to `sleep 1`).
`monitorExecutable` is the `[ -x "./monitor_metrics.sh" ]` test (the script
`chmod +x`'s it beforehand, so it normally holds); `samplerWroteLog` resolves
the race between the backgrounded sampler's first write (which creates the
log file) and the `kill` the runner sends on the skip path — the code has no
synchronisation, so both interleavings are legal executions.  On the non-skip
paths the sampler runs for the whole capture, so once started it writes the
log file.  The skip check `[ "$TEST_FORMAT" = "yuyv" ] && [ "$ENC" = "copy" ]`
happens after the sampler is started and before ffmpeg runs. -/
def runJob (duration : Nat) (testFormat enc : String)
    (monitorExecutable samplerWroteLog : Bool)
    (capture : CaptureOutcome) : JobResult :=
  let monitorStarted := monitorExecutable
  let samplerArg : Option Nat := if monitorStarted then some duration else none
  if testFormat = "yuyv" ∧ enc = "copy" then
    { status := JobStatus.skipped
      logFileExists := monitorStarted && samplerWroteLog
      outputFileExists := false
      errorLogExists := false
      errorLogLines := []
      sizeRecorded := false
      captureTimeLimit := none
      samplerDurationArg := samplerArg
      samplerKillAttempted := monitorStarted }
  else if capture.exitOk then
    { status := JobStatus.succeeded
      logFileExists := monitorStarted
      outputFileExists := capture.wroteOutput
      errorLogExists := false          -- `rm -f "${OUTFILE}.error.log"`
      errorLogLines := []
      sizeRecorded := true
      captureTimeLimit := some (duration + 10)
      samplerDurationArg := samplerArg
      samplerKillAttempted := monitorStarted }
  else
    { status := JobStatus.failed
      logFileExists := monitorStarted
      outputFileExists := capture.wroteOutput
      errorLogExists := true           -- preserved: no deletion on this path
      errorLogLines := capture.stderrLines
      sizeRecorded := false
      captureTimeLimit := some (duration + 10)
      samplerDurationArg := samplerArg
      samplerKillAttempted := monitorStarted }

/-- One `/dev/video*` node as the detection loop probes it:
whether `v4l2-ctl --all | grep -qi "usb\|hdmi"` matched, and the pixel
formats parsed from `--list-formats-ext`. -/
structure DeviceProbe where
  usbHdmiMatch : Bool
  formats : List String
deriving DecidableEq

/-- The environment `test_video_capture.sh` runs in: which of the three
checked dependencies are installed, the probe results of the video device
nodes, and the capture outcomes of the individual jobs (which, per the
script's control flow, never influence its exit status: every job failure is
absorbed by the `if timeout ... then ... else ... fi` condition). -/
structure Env where
  ffmpegInstalled : Bool
  v4l2ctlInstalled : Bool
  iostatInstalled : Bool
  devices : List DeviceProbe
  jobOutcomes : List CaptureOutcome

/-- The `for cmd in ffmpeg v4l2-ctl iostat` dependency check. -/
def depsOk (e : Env) : Bool :=
  e.ffmpegInstalled && e.v4l2ctlInstalled && e.iostatInstalled

/-- The devices the detection loop keeps in `VDEVICES`: those matching the
usb/hdmi grep that also advertise at least one supported format. -/
def detectedDevices (e : Env) : List DeviceProbe :=
  e.devices.filter fun d => d.usbHdmiMatch && !d.formats.isEmpty

/-- The exit code of a run of `test_video_capture.sh`: `exit 1` from the
dependency loop, `exit 1` when `${#VDEVICES[@]} -eq 0`, and otherwise the
script runs to its final `echo`s and exits 0 (under `set -e`, every command
that can fail on the remaining paths is a condition of an `if`/`&&`/`||`
or a pipeline ending in a command that succeeds). -/
def scriptExitCode (e : Env) : Nat :=
  if depsOk e = false then 1
  else if (detectedDevices e).isEmpty then 1
  else 0

/-- What `pd.read_csv` plus the column accesses yield for one log file:
`fail` for any exception (malformed CSV, missing column), `ok rows` for a
parsed file whose three metric columns hold `rows`. -/
inductive ParseResult where
  | fail
  | ok (rows : List Reading)
deriving DecidableEq

/-- Whether parsing this log raised. -/
def ParseResult.isFail : ParseResult → Bool
  | ParseResult.fail => true
  | ParseResult.ok _ => false

/-- One `.log` file of the results directory; `base` is its name without the
`.log` extension (the deterministic job prefix — `.log` occurs in the path
once, so Python's `replace(".log", ext)` is suffix replacement). -/
structure LogFile where
  base : String
  parsed : ParseResult
deriving DecidableEq

/-- A log that parses and has at least one data row, so that its column
means and maxima are actual numbers rather than NaN. -/
def WellFormed (lf : LogFile) : Prop :=
  ∃ rows, lf.parsed = ParseResult.ok rows ∧ rows ≠ []

/-- The results directory as the summarizer sees it: the `.log` files (in
glob order) and the sizes in bytes of the `.mp4`/`.avi` files, keyed by the
job prefix (`none` when the file does not exist). -/
structure ResultsDir where
  logs : List LogFile
  mp4Bytes : String → Option ℚ
  aviBytes : String → Option ℚ

/-- `Series.mean`: NaN (here `none`) on an empty column. -/
def colMean (l : List ℚ) : Option ℚ :=
  if l.isEmpty then none else some (l.sum / l.length)

/-- `Series.max`: NaN (here `none`) on an empty column. -/
def colMax : List ℚ → Option ℚ
  | [] => none
  | x :: xs =>
    match colMax xs with
    | none => some x
    | some m => some (max x m)

/-- Python's `round` to an integer: round half to even, otherwise to the
nearest integer. -/
def pyRound (q : ℚ) : ℤ :=
  if q - (⌊q⌋ : ℚ) = 1 / 2 then (if ⌊q⌋ % 2 = 0 then ⌊q⌋ else ⌊q⌋ + 1)
  else round q

/-- `round(x, 1)`. -/
def pyRound1 (q : ℚ) : ℚ := (pyRound (q * 10) : ℚ) / 10

/-- `round(x, 2)`. -/
def pyRound2 (q : ℚ) : ℚ := (pyRound (q * 100) : ℚ) / 100

/-- `summarize_results.py`'s media lookup: try `base + ".mp4"`, then
`base + ".avi"`, else size 0; sizes are reported in MiB. -/
def videoSizeMB (d : ResultsDir) (base : String) : ℚ :=
  match d.mp4Bytes base with
  | some n => n / (1024 * 1024)
  | none =>
    match d.aviBytes base with
    | some n => n / (1024 * 1024)
    | none => 0

/-- One row of the summary table (`test, avg_cpu_percent, max_mem_mb,
avg_disk_kbps, video_size_mb`; the HTML variant uses the same fields under
display names).  The two mean columns are `none` when the log had no data
rows (pandas NaN). -/
structure SummaryEntry where
  test : String
  avg_cpu_percent : Option ℚ
  max_mem_mb : Option ℚ
  avg_disk_kbps : Option ℚ
  video_size_mb : ℚ
deriving DecidableEq

/-- The `try` body of the summarizer's per-log loop: `none` when parsing
raised (the `except` path prints and continues), `some entry` otherwise. -/
def processLog (d : ResultsDir) (lf : LogFile) : Option SummaryEntry :=
  match lf.parsed with
  | ParseResult.fail => none
  | ParseResult.ok rows =>
    some
      { test := lf.base
        avg_cpu_percent := (colMean (rows.map Reading.cpu)).map pyRound1
        max_mem_mb := colMax (rows.map Reading.mem)
        avg_disk_kbps := (colMean (rows.map Reading.disk)).map pyRound1
        video_size_mb := pyRound2 (videoSizeMB d lf.base) }

/-- The `Error processing <file>: <e>` lines the summarizer prints, one per
log whose parsing raised (modelled up to the exception text). -/
def errorMessages (d : ResultsDir) : List String :=
  (d.logs.filter fun lf => lf.parsed.isFail).map
    fun lf => "Error processing " ++ lf.base ++ ".log"

/-- `sort_values("avg_cpu_percent")` key order: ascending, NaN last. -/
def keyLE : Option ℚ → Option ℚ → Bool
  | some a, some b => decide (a ≤ b)
  | some _, none => true
  | none, some _ => false
  | none, none => true

/-- The sort key comparison between two summary rows. -/
def entryLE (a b : SummaryEntry) : Bool :=
  keyLE a.avg_cpu_percent b.avg_cpu_percent

/-- Insertion into a list sorted by `entryLE`. -/
def insertSorted (e : SummaryEntry) : List SummaryEntry → List SummaryEntry
  | [] => [e]
  | f :: rest => if entryLE e f then e :: f :: rest else f :: insertSorted e rest

/-- `df_summary.sort_values("avg_cpu_percent")`, modelled as insertion sort
(the observable facts — row multiset and ascending key order — do not depend
on the sorting algorithm). -/
def sortByAvgCpu : List SummaryEntry → List SummaryEntry
  | [] => []
  | e :: rest => insertSorted e (sortByAvgCpu rest)

/-- What the summarizer prints last: the no-logs diagnostic (followed by
`exit(1)`), the sorted table, or the no-valid-data diagnostic. -/
inductive SummOutput where
  | noLogs
  | table (rows : List SummaryEntry)
  | noValidData
deriving DecidableEq

/-- The literal message of the two diagnostic outcomes. -/
def summOutputText : SummOutput → String
  | SummOutput.noLogs => "No log files found in results directory."
  | SummOutput.noValidData => "No valid data found in log files."
  | SummOutput.table _ => ""

/-- A whole summarizer run: the per-log error lines, the final output, and
the process exit status. -/
structure SummRun where
  errors : List String
  output : SummOutput
  exitCode : Nat
deriving DecidableEq

/-- The rows of the printed table: the successfully processed logs, sorted
ascending by (rounded) average CPU. -/
def summaryRows (d : ResultsDir) : List SummaryEntry :=
  sortByAvgCpu (d.logs.filterMap (processLog d))

/-- `summarize_results.py` end to end: `exit(1)` when the glob finds no
logs; otherwise process every log (catching per-log exceptions), then print
either the sorted table or the no-valid-data message and exit 0. -/
def summarizeResults (d : ResultsDir) : SummRun :=
  if d.logs.isEmpty then
    { errors := [], output := SummOutput.noLogs, exitCode := 1 }
  else if (d.logs.filterMap (processLog d)).isEmpty then
    { errors := errorMessages d, output := SummOutput.noValidData, exitCode := 0 }
  else
    { errors := errorMessages d, output := SummOutput.table (summaryRows d)
      exitCode := 0 }

/-- The HTML report's media lookup (`output.py`): it only tries `.mp4`. -/
def htmlVideoSizeMB (d : ResultsDir) (base : String) : ℚ :=
  match d.mp4Bytes base with
  | some n => n / (1024 * 1024)
  | none => 0

/-- One row built by the HTML report script for a log that parsed. -/
def htmlEntry (d : ResultsDir) (base : String) (rows : List Reading) :
    SummaryEntry :=
  { test := base
    avg_cpu_percent := (colMean (rows.map Reading.cpu)).map pyRound1
    max_mem_mb := colMax (rows.map Reading.mem)
    avg_disk_kbps := (colMean (rows.map Reading.disk)).map pyRound1
    video_size_mb := pyRound2 (htmlVideoSizeMB d base) }

/-- The HTML report's per-log loop: it has no `try`/`except`, so the first
log whose parsing raises aborts the whole run with that exception. -/
def htmlCollect (d : ResultsDir) : List LogFile → Except String (List SummaryEntry)
  | [] => Except.ok []
  | lf :: rest =>
    match lf.parsed with
    | ParseResult.fail => Except.error (lf.base ++ ".log")
    | ParseResult.ok rows =>
      match htmlCollect d rest with
      | Except.error e => Except.error e
      | Except.ok es => Except.ok (htmlEntry d lf.base rows :: es)

/-- `generate_html_report.py` end to end: collect rows (aborting on the
first parse exception), then `sort_values` — which itself raises a
`KeyError` when the summary is empty (an empty `DataFrame` has no
`Avg CPU (%)` column), i.e. when there were no logs at all. -/
def htmlReport (d : ResultsDir) : Except String (List SummaryEntry) :=
  match htmlCollect d d.logs with
  | Except.error e => Except.error e
  | Except.ok es =>
    if es.isEmpty then Except.error "KeyError" else Except.ok (sortByAvgCpu es)

/-- A media-size map with no files. -/
def noMedia : String → Option ℚ := fun _ => none

/-- A results directory with no `.log` files. -/
def emptyDir : ResultsDir :=
  { logs := [], mp4Bytes := noMedia, aviBytes := noMedia }

/-- Synthetic metric rows whose CPU column is `10, 20, 30`. -/
def demoRows : List Reading :=
  [{ cpu := 10, mem := 0, disk := 0 }, { cpu := 20, mem := 0, disk := 0 },
   { cpu := 30, mem := 0, disk := 0 }]

/-- A directory with exactly one well-formed log and no media files. -/
def singleLogDir : ResultsDir :=
  { logs := [{ base := "video0_mjpeg_copy_20250101_000000"
               parsed := ParseResult.ok demoRows }]
    mp4Bytes := noMedia, aviBytes := noMedia }

/-- A directory whose only log fails to parse. -/
def allFailDir : ResultsDir :=
  { logs := [{ base := "broken", parsed := ParseResult.fail }]
    mp4Bytes := noMedia, aviBytes := noMedia }

/-- A directory with one unparseable log followed by one well-formed log. -/
def mixedDir : ResultsDir :=
  { logs := [{ base := "bad", parsed := ParseResult.fail },
             { base := "good", parsed := ParseResult.ok demoRows }]
    mp4Bytes := noMedia, aviBytes := noMedia }

/-! ## Lemmas about the sampler loop -/

theorem monitorLoop_length_le (readings : Nat → Reading) (cost : Nat → Nat)
    (t0 endT : Nat) (hcost : ∀ i, 1 ≤ cost i) :
    ∀ fuel elapsed i,
      (monitorLoop readings cost t0 endT fuel elapsed i).length ≤ endT - elapsed := by
  intro fuel
  induction fuel with
  | zero => intro elapsed i; simp [monitorLoop]
  | succ n ih =>
    intro elapsed i
    simp only [monitorLoop]
    split
    · have h1 := ih (elapsed + cost i) (i + 1)
      have h2 := hcost i
      simp only [List.length_cons]
      omega
    · simp

theorem monitorLoop_length_exact (readings : Nat → Reading) (cost : Nat → Nat)
    (t0 endT : Nat) (hcost : ∀ i, cost i = 1) :
    ∀ fuel elapsed i, endT - elapsed ≤ fuel →
      (monitorLoop readings cost t0 endT fuel elapsed i).length = endT - elapsed := by
  intro fuel
  induction fuel with
  | zero => intro elapsed i h; simp [monitorLoop]; omega
  | succ n ih =>
    intro elapsed i h
    simp only [monitorLoop]
    split
    · rename_i hlt
      have h1 := ih (elapsed + cost i) (i + 1) (by have := hcost i; omega)
      simp only [List.length_cons, h1]
      have := hcost i
      omega
    · rename_i hge
      simp only [List.length_nil]
      omega

theorem monitorLoop_timestamps (readings : Nat → Reading) (cost : Nat → Nat)
    (t0 endT : Nat) :
    ∀ fuel elapsed i,
      List.Chain' (fun a b => a ≤ b)
        (sampleTimestamps (monitorLoop readings cost t0 endT fuel elapsed i)) ∧
      ∀ ts ∈ sampleTimestamps (monitorLoop readings cost t0 endT fuel elapsed i),
        t0 + elapsed ≤ ts := by
  intro fuel
  induction fuel with
  | zero => intro elapsed i; simp [monitorLoop, sampleTimestamps]
  | succ n ih =>
    intro elapsed i
    simp only [monitorLoop]
    split
    · obtain ⟨ihc, ihb⟩ := ih (elapsed + cost i) (i + 1)
      simp only [sampleTimestamps, List.filterMap_cons, lineTimestamp]
      refine ⟨List.chain'_cons'.mpr ⟨fun y hy => ?_, ihc⟩, fun ts hts => ?_⟩
      · have := ihb y (List.mem_of_mem_head? hy)
        omega
      · rcases List.mem_cons.mp hts with h | h
        · omega
        · have := ihb ts h
          omega
    · simp [sampleTimestamps]

/-! ## Lemmas about the summary sort -/

theorem keyLE_total (a b : Option ℚ) : keyLE a b = true ∨ keyLE b a = true := by
  cases a with
  | none =>
    cases b with
    | none => exact Or.inl rfl
    | some y => exact Or.inr rfl
  | some x =>
    cases b with
    | none => exact Or.inl rfl
    | some y =>
      simp only [keyLE, decide_eq_true_eq]
      exact le_total x y

theorem entryLE_total (a b : SummaryEntry) :
    entryLE a b = true ∨ entryLE b a = true :=
  keyLE_total _ _

theorem insertSorted_length (e : SummaryEntry) :
    ∀ l : List SummaryEntry, (insertSorted e l).length = l.length + 1 := by
  intro l
  induction l with
  | nil => rfl
  | cons f rest ih =>
    simp only [insertSorted]
    split
    · rfl
    · simp only [List.length_cons, ih]

theorem sortByAvgCpu_length :
    ∀ l : List SummaryEntry, (sortByAvgCpu l).length = l.length := by
  intro l
  induction l with
  | nil => rfl
  | cons e rest ih =>
    simp only [sortByAvgCpu, insertSorted_length, List.length_cons, ih]

theorem insertSorted_head (e : SummaryEntry) :
    ∀ l : List SummaryEntry,
      (insertSorted e l).head? = some e ∨ (insertSorted e l).head? = l.head? := by
  intro l
  cases l with
  | nil => exact Or.inl rfl
  | cons f rest =>
    simp only [insertSorted]
    split
    · exact Or.inl rfl
    · exact Or.inr rfl

theorem chain'_insertSorted (e : SummaryEntry) :
    ∀ l : List SummaryEntry,
      List.Chain' (fun a b => entryLE a b = true) l →
      List.Chain' (fun a b => entryLE a b = true) (insertSorted e l) := by
  intro l
  induction l with
  | nil => intro _; exact List.chain'_singleton e
  | cons f rest ih =>
    intro h
    simp only [insertSorted]
    split
    · rename_i hef
      exact List.chain'_cons.mpr ⟨hef, h⟩
    · rename_i hef
      have hfe : entryLE f e = true := by
        rcases entryLE_total e f with h' | h'
        · exact absurd h' hef
        · exact h'
      have hrest := (List.chain'_cons'.mp h).2
      have hhd := (List.chain'_cons'.mp h).1
      refine List.chain'_cons'.mpr ⟨fun y hy => ?_, ih hrest⟩
      rcases insertSorted_head e rest with h' | h'
      · rw [h'] at hy
        cases hy
        exact hfe
      · rw [h'] at hy
        exact hhd y hy

theorem sortByAvgCpu_chain :
    ∀ l : List SummaryEntry,
      List.Chain' (fun a b => entryLE a b = true) (sortByAvgCpu l) := by
  intro l
  induction l with
  | nil => exact List.chain'_nil
  | cons e rest ih => exact chain'_insertSorted e _ ih

/-! ## Lemmas about per-log processing -/

theorem processLog_isSome_of_ok (d : ResultsDir) (lf : LogFile) (rows : List Reading)
    (h : lf.parsed = ParseResult.ok rows) : processLog d lf ≠ none := by
  simp [processLog, h]

theorem length_filterMap_processLog (d : ResultsDir) :
    ∀ logs : List LogFile,
      (logs.filterMap (processLog d)).length =
        (logs.filter fun l => !l.parsed.isFail).length := by
  intro logs
  induction logs with
  | nil => rfl
  | cons lf rest ih =>
    cases hp : lf.parsed with
    | fail =>
      simp [List.filterMap_cons, List.filter_cons, processLog, hp,
        ParseResult.isFail, ih]
    | ok rows =>
      simp [List.filterMap_cons, List.filter_cons, processLog, hp,
        ParseResult.isFail, ih]

theorem length_filterMap_processLog_of_wf (d : ResultsDir) :
    ∀ logs : List LogFile, (∀ lf ∈ logs, WellFormed lf) →
      (logs.filterMap (processLog d)).length = logs.length := by
  intro logs
  induction logs with
  | nil => intro _; rfl
  | cons lf rest ih =>
    intro h
    obtain ⟨rows, hrows, -⟩ := h lf (List.mem_cons_self lf rest)
    simp only [List.filterMap_cons, processLog, hrows, List.length_cons]
    exact congrArg (· + 1) (ih fun x hx => h x (List.mem_cons_of_mem lf hx))

/-! ## Claim C1: lines and timestamps of the Metrics Sampler's output -/

/-- Claim C1 as stated is false: `monitor_metrics.sh` invoked with duration 2
writes 2 lines, not 2+1, when each loop iteration consumes two seconds of
`SECONDS` (the `sleep 1` plus one extra second spent in the metric commands,
e.g. the two-cycle `iostat -d 1 2` call) — nothing in the script makes an
iteration take exactly one second. -/
theorem monitor_lines_counterexample :
    ¬ ((monitorMetrics (fun _ => { cpu := 0, mem := 0, disk := 0 })
        (fun _ => 2) 0 2).length = 2 + 1) := by
  decide

/-- Claim C1 (amended): for duration `N ≥ 1`, the output of
`monitor_metrics.sh` starts with the header line
`timestamp,cpu_percent,mem_used_mb,disk_write_kbps`, has at least 2 and at
most `N + 1` lines — in particular exactly `N + 1` whenever every loop
iteration consumes exactly one second — and the timestamps of successive
sample rows are monotonically non-decreasing.  (One-second iterations are
sufficient, not necessary, for the exact count: the loop checks
`SECONDS < END` before an iteration consumes its time, so a slow final
iteration does not reduce the row count.) -/
theorem monitor_lines_amended (readings : Nat → Reading) (cost : Nat → Nat)
    (t0 N : Nat) (hN : 1 ≤ N) (hcost : ∀ i, 1 ≤ cost i) :
    (monitorMetrics readings cost t0 N).head? = some MetricsLine.header ∧
    2 ≤ (monitorMetrics readings cost t0 N).length ∧
    (monitorMetrics readings cost t0 N).length ≤ N + 1 ∧
    ((∀ i, cost i = 1) → (monitorMetrics readings cost t0 N).length = N + 1) ∧
    List.Chain' (fun a b => a ≤ b)
      (sampleTimestamps (monitorMetrics readings cost t0 N)) := by
  refine ⟨rfl, ?_, ?_, ?_, ?_⟩
  · simp only [monitorMetrics, List.length_cons]
    cases N with
    | zero => omega
    | succ m =>
      simp only [monitorLoop]
      rw [if_pos (Nat.succ_pos m)]
      simp only [List.length_cons]
      omega
  · simp only [monitorMetrics, List.length_cons]
    have := monitorLoop_length_le readings cost t0 N hcost N 0 0
    omega
  · intro hone
    simp only [monitorMetrics, List.length_cons]
    have := monitorLoop_length_exact readings cost t0 N hone N 0 0 (by omega)
    omega
  · simp only [monitorMetrics, sampleTimestamps, List.filterMap_cons, lineTimestamp]
    exact (monitorLoop_timestamps readings cost t0 N N 0 0).1

/-- Witness for C1's amended theorem at duration 2 with one-second
iterations: the claimed bounds hold and the exact count is 3 lines. -/
theorem monitor_lines_amended_witness :
    (monitorMetrics (fun _ => { cpu := 0, mem := 0, disk := 0 })
        (fun _ => 1) 5 2).head? = some MetricsLine.header ∧
    2 ≤ (monitorMetrics (fun _ => { cpu := 0, mem := 0, disk := 0 })
        (fun _ => 1) 5 2).length ∧
    (monitorMetrics (fun _ => { cpu := 0, mem := 0, disk := 0 })
        (fun _ => 1) 5 2).length ≤ 2 + 1 ∧
    ((∀ _i : Nat, (1 : Nat) = 1) →
      (monitorMetrics (fun _ => { cpu := 0, mem := 0, disk := 0 })
          (fun _ => 1) 5 2).length = 2 + 1) ∧
    List.Chain' (fun a b => a ≤ b)
      (sampleTimestamps (monitorMetrics (fun _ => { cpu := 0, mem := 0, disk := 0 })
          (fun _ => 1) 5 2)) :=
  monitor_lines_amended _ _ 5 2 (by decide) (fun _ => le_refl 1)

/-! ## Claim C2: artifacts of a skipped YUYV + copy job -/

/-- Claim C2 as stated is false: in the execution in which the backgrounded
sampler writes its header before the runner's `kill` lands (a legal
interleaving — the sampler is started before the skip check), a skipped
YUYV/copy job leaves a metrics log file behind. -/
theorem skip_logfile_counterexample :
    (runJob 10 "yuyv" "copy" true true
        { exitOk := true, wroteOutput := true, stderrLines := [] }).status =
      JobStatus.skipped ∧
    (runJob 10 "yuyv" "copy" true true
        { exitOk := true, wroteOutput := true, stderrLines := [] }).logFileExists =
      true := by
  decide

/-- Claim C2 (amended): a YUYV/copy job is always SKIPPED and produces no
output media file and no error-log file; the metrics log file, however, may
exist — it does exactly when the sampler (started before the skip check)
wrote it before being killed. -/
theorem skip_artifacts_amended (duration : Nat) (monExec wrote : Bool)
    (capture : CaptureOutcome) :
    (runJob duration "yuyv" "copy" monExec wrote capture).status =
      JobStatus.skipped ∧
    (runJob duration "yuyv" "copy" monExec wrote capture).outputFileExists =
      false ∧
    (runJob duration "yuyv" "copy" monExec wrote capture).errorLogExists =
      false ∧
    (runJob duration "yuyv" "copy" monExec wrote capture).logFileExists =
      (monExec && wrote) :=
  ⟨rfl, rfl, rfl, rfl⟩

/-! ## Claim C6: artifacts of a successful job -/

/-- Claim C6: a job whose capture command exits zero within its bound and
writes its output file ends SUCCEEDED with exactly the output media file
present for its prefix: the error log is deleted (`rm -f`), and the file
size is recorded. -/
theorem success_artifacts (duration : Nat) (fmt enc : String)
    (monExec wrote : Bool) (capture : CaptureOutcome)
    (hskip : ¬(fmt = "yuyv" ∧ enc = "copy"))
    (hok : capture.exitOk = true) (hw : capture.wroteOutput = true) :
    (runJob duration fmt enc monExec wrote capture).status =
      JobStatus.succeeded ∧
    (runJob duration fmt enc monExec wrote capture).outputFileExists = true ∧
    (runJob duration fmt enc monExec wrote capture).errorLogExists = false ∧
    (runJob duration fmt enc monExec wrote capture).sizeRecorded = true := by
  simp only [runJob]
  rw [if_neg hskip, if_pos hok]
  exact ⟨rfl, hw, rfl, rfl⟩

/-- Witness for C6 at a concrete successful mjpeg/copy job. -/
theorem success_artifacts_witness :
    (runJob 10 "mjpeg" "copy" true true
        { exitOk := true, wroteOutput := true, stderrLines := [] }).status =
      JobStatus.succeeded ∧
    (runJob 10 "mjpeg" "copy" true true
        { exitOk := true, wroteOutput := true, stderrLines := [] }).outputFileExists =
      true ∧
    (runJob 10 "mjpeg" "copy" true true
        { exitOk := true, wroteOutput := true, stderrLines := [] }).errorLogExists =
      false ∧
    (runJob 10 "mjpeg" "copy" true true
        { exitOk := true, wroteOutput := true, stderrLines := [] }).sizeRecorded =
      true :=
  success_artifacts 10 "mjpeg" "copy" true true _ (by decide) rfl rfl

/-! ## Claim C7: artifacts of a failed job -/

/-- Claim C7 as stated is false: the error log of a failed job holds exactly
what the capture command wrote to stderr, and nothing in the script makes
that non-empty — a capture that fails without writing to stderr leaves an
empty (but preserved) error log, since the `2>` redirection itself creates
the file. -/
theorem empty_errorlog_counterexample :
    (runJob 10 "mjpeg" "libx264" true true
        { exitOk := false, wroteOutput := false, stderrLines := [] }).status =
      JobStatus.failed ∧
    (runJob 10 "mjpeg" "libx264" true true
        { exitOk := false, wroteOutput := false, stderrLines := [] }).errorLogExists =
      true ∧
    (runJob 10 "mjpeg" "libx264" true true
        { exitOk := false, wroteOutput := false, stderrLines := [] }).errorLogLines =
      [] := by
  decide

/-- Claim C7 (amended): a job whose capture command exits non-zero or times
out is marked FAILED and its error-log file exists and is preserved (never
deleted), holding exactly the capture command's stderr output — non-empty
precisely when the command wrote to stderr. -/
theorem failed_errorlog_amended (duration : Nat) (fmt enc : String)
    (monExec wrote : Bool) (capture : CaptureOutcome)
    (hskip : ¬(fmt = "yuyv" ∧ enc = "copy"))
    (hfail : capture.exitOk = false) :
    (runJob duration fmt enc monExec wrote capture).status = JobStatus.failed ∧
    (runJob duration fmt enc monExec wrote capture).errorLogExists = true ∧
    (runJob duration fmt enc monExec wrote capture).errorLogLines =
      capture.stderrLines := by
  simp only [runJob]
  rw [if_neg hskip, if_neg (by simp [hfail])]
  exact ⟨rfl, rfl, rfl⟩

/-- Witness for C7's amended theorem at a concrete failed job with one
stderr line. -/
theorem failed_errorlog_amended_witness :
    (runJob 10 "nv12" "v4l2m2m" true true
        { exitOk := false, wroteOutput := false,
          stderrLines := ["Device or resource busy"] }).status =
      JobStatus.failed ∧
    (runJob 10 "nv12" "v4l2m2m" true true
        { exitOk := false, wroteOutput := false,
          stderrLines := ["Device or resource busy"] }).errorLogExists = true ∧
    (runJob 10 "nv12" "v4l2m2m" true true
        { exitOk := false, wroteOutput := false,
          stderrLines := ["Device or resource busy"] }).errorLogLines =
      ["Device or resource busy"] :=
  failed_errorlog_amended 10 "nv12" "v4l2m2m" true true _ (by decide) rfl

/-! ## Claim C8: time bounds and sampler cleanup -/

/-- Claim C8: for every non-skipped job (with the sampler script executable,
as the runner arranges), the capture command is bounded by
`timeout $((DURATION + 10))`, the sampler is invoked with exactly the job's
duration and no grace period, and the runner attempts to kill the sampler
after the capture step regardless of the capture's outcome (the
`2>/dev/null || true` tolerating an already-exited sampler). -/
theorem job_time_bounds (duration : Nat) (fmt enc : String) (wrote : Bool)
    (capture : CaptureOutcome) (hskip : ¬(fmt = "yuyv" ∧ enc = "copy")) :
    (runJob duration fmt enc true wrote capture).captureTimeLimit =
      some (duration + 10) ∧
    (runJob duration fmt enc true wrote capture).samplerDurationArg =
      some duration ∧
    (runJob duration fmt enc true wrote capture).samplerKillAttempted = true := by
  simp only [runJob]
  rw [if_neg hskip]
  by_cases h : capture.exitOk = true
  · rw [if_pos h]
    exact ⟨rfl, rfl, rfl⟩
  · rw [if_neg h]
    exact ⟨rfl, rfl, rfl⟩

/-- Witness for C8 at a concrete failed job (cleanup happens on failure
too). -/
theorem job_time_bounds_witness :
    (runJob 7 "yuyv" "libx264" true true
        { exitOk := false, wroteOutput := false, stderrLines := [] }).captureTimeLimit =
      some (7 + 10) ∧
    (runJob 7 "yuyv" "libx264" true true
        { exitOk := false, wroteOutput := false, stderrLines := [] }).samplerDurationArg =
      some 7 ∧
    (runJob 7 "yuyv" "libx264" true true
        { exitOk := false, wroteOutput := false, stderrLines := [] }).samplerKillAttempted =
      true :=
  job_time_bounds 7 "yuyv" "libx264" true _ (by decide)

/-! ## Claim C9: the matrix runner's exit code -/

/-- Claim C9: `test_video_capture.sh` exits 1 exactly when a dependency is
missing or device detection keeps zero devices, and exits 0 in every other
case; the per-job capture outcomes never influence the exit code. -/
theorem exit_code_spec (e : Env) :
    (scriptExitCode e = 1 ↔ (depsOk e = false ∨ detectedDevices e = [])) ∧
    (scriptExitCode e = 0 ↔ (depsOk e = true ∧ detectedDevices e ≠ [])) ∧
    (∀ os, scriptExitCode { e with jobOutcomes := os } = scriptExitCode e) := by
  have hnil : (detectedDevices e).isEmpty = true ↔ detectedDevices e = [] := by
    cases detectedDevices e <;> simp
  refine ⟨?_, ?_, fun os => rfl⟩ <;>
    cases hd : depsOk e <;> cases hdet : (detectedDevices e).isEmpty <;>
      simp [scriptExitCode, hd, hdet, ← hnil]

/-! ## Claim C3: the summarizer on zero logs and on k well-formed logs -/

/-- Claim C3: with zero `.log` files the summarizer prints the no-logs
message and exits 1; with `k ≥ 1` well-formed logs it prints a table of
exactly `k` rows sorted ascending by (rounded) average CPU and exits 0. -/
theorem summarizer_spec (d : ResultsDir) (k : Nat) :
    (d.logs = [] →
      (summarizeResults d).output = SummOutput.noLogs ∧
      (summarizeResults d).exitCode = 1) ∧
    ((∀ lf ∈ d.logs, WellFormed lf) → d.logs.length = k → 0 < k →
      (summarizeResults d).output = SummOutput.table (summaryRows d) ∧
      (summaryRows d).length = k ∧
      List.Chain' (fun a b => entryLE a b = true) (summaryRows d) ∧
      (summarizeResults d).exitCode = 0) := by
  constructor
  · intro h
    simp [summarizeResults, h]
  · intro hwf hk hpos
    have hlen : (d.logs.filterMap (processLog d)).length = k := by
      rw [length_filterMap_processLog_of_wf d d.logs hwf, hk]
    have hne : d.logs.isEmpty = false := by
      cases hl : d.logs with
      | nil =>
        exfalso
        rw [hl] at hk
        simp at hk
        omega
      | cons a l => rfl
    have hfne : (d.logs.filterMap (processLog d)).isEmpty = false := by
      cases hf : d.logs.filterMap (processLog d) with
      | nil =>
        exfalso
        rw [hf] at hlen
        simp at hlen
        omega
      | cons a l => rfl
    refine ⟨?_, ?_, sortByAvgCpu_chain _, ?_⟩
    · simp [summarizeResults, hne, hfne]
    · rw [summaryRows, sortByAvgCpu_length, hlen]
    · simp [summarizeResults, hne, hfne]

/-- Witness for C3 at two concrete directories: an empty one and one with a
single well-formed log. -/
theorem summarizer_spec_witness :
    ((summarizeResults emptyDir).output = SummOutput.noLogs ∧
      (summarizeResults emptyDir).exitCode = 1) ∧
    ((summarizeResults singleLogDir).output =
        SummOutput.table (summaryRows singleLogDir) ∧
      (summaryRows singleLogDir).length = 1 ∧
      List.Chain' (fun a b => entryLE a b = true) (summaryRows singleLogDir) ∧
      (summarizeResults singleLogDir).exitCode = 0) :=
  ⟨(summarizer_spec emptyDir 0).1 rfl,
   (summarizer_spec singleLogDir 1).2
     (fun lf h => by
       simp only [singleLogDir] at h
       rw [List.mem_singleton.mp h]
       exact ⟨demoRows, rfl, by decide⟩)
     rfl (by decide)⟩

/-! ## Claim C4: round-trip over one log with CPU values 10, 20, 30 -/

/-- Claim C4: over a directory holding exactly one log whose CPU column is
`10, 20, 30` and no matching `.mp4`/`.avi` file, the summarizer reports
average CPU `20.0` and video size `0.0` for that entry. -/
theorem roundtrip_single_log (b : String) (rows : List Reading) (d : ResultsDir)
    (hlogs : d.logs = [{ base := b, parsed := ParseResult.ok rows }])
    (hcpu : rows.map Reading.cpu = [10, 20, 30])
    (hmp4 : d.mp4Bytes b = none) (havi : d.aviBytes b = none) :
    ∃ e, (summarizeResults d).output = SummOutput.table [e] ∧
      e.avg_cpu_percent = some 20 ∧ e.video_size_mb = 0 ∧ e.test = b := by
  refine ⟨{ test := b
            avg_cpu_percent := (colMean (rows.map Reading.cpu)).map pyRound1
            max_mem_mb := colMax (rows.map Reading.mem)
            avg_disk_kbps := (colMean (rows.map Reading.disk)).map pyRound1
            video_size_mb := pyRound2 (videoSizeMB d b) }, ?_, ?_, ?_, rfl⟩
  · simp [summarizeResults, hlogs, summaryRows, processLog, sortByAvgCpu,
      insertSorted]
  · show (colMean (rows.map Reading.cpu)).map pyRound1 = some 20
    rw [hcpu]
    norm_num [colMean, pyRound1, pyRound, round_eq]
  · show pyRound2 (videoSizeMB d b) = 0
    simp only [videoSizeMB, hmp4, havi]
    norm_num [pyRound2, pyRound, round_eq]

/-- Witness for C4 at the concrete single-log directory. -/
theorem roundtrip_single_log_witness :
    ∃ e, (summarizeResults singleLogDir).output = SummOutput.table [e] ∧
      e.avg_cpu_percent = some 20 ∧ e.video_size_mb = 0 ∧
      e.test = "video0_mjpeg_copy_20250101_000000" :=
  roundtrip_single_log _ demoRows singleLogDir rfl rfl rfl rfl

/-! ## Claim C5: recovery from per-log parse failures -/

/-- Claim C5 as stated is false for the HTML rendering form: over a
directory whose first log fails to parse, `generate_html_report.py` (which
has no `try`/`except` around `pd.read_csv`) aborts with the exception
instead of excluding the file and continuing. -/
theorem html_abort_counterexample :
    htmlReport mixedDir = Except.error "bad.log" := by
  rfl

/-- Claim C5 (amended): the text summarizer reports a log that fails to
parse, excludes it from the summary, still exits 0, and processes every
remaining log (exactly the parseable logs contribute rows); the HTML report
generator, by contrast, aborts on the first parse failure. -/
theorem parse_failure_handling (d : ResultsDir) (lf : LogFile)
    (hmem : lf ∈ d.logs) (hfail : lf.parsed = ParseResult.fail) :
    processLog d lf = none ∧
    ("Error processing " ++ lf.base ++ ".log") ∈ (summarizeResults d).errors ∧
    (summarizeResults d).exitCode = 0 ∧
    (d.logs.filterMap (processLog d)).length =
      (d.logs.filter fun l => !l.parsed.isFail).length := by
  have hne : d.logs.isEmpty = false := by
    cases hl : d.logs with
    | nil =>
      rw [hl] at hmem
      cases hmem
    | cons a l => rfl
  have hmsg : ("Error processing " ++ lf.base ++ ".log") ∈ errorMessages d := by
    unfold errorMessages
    exact List.mem_map.mpr
      ⟨lf, List.mem_filter.mpr ⟨hmem, by simp [hfail, ParseResult.isFail]⟩, rfl⟩
  refine ⟨by simp [processLog, hfail], ?_, ?_, length_filterMap_processLog d d.logs⟩
  · unfold summarizeResults
    rw [if_neg (by simp [hne])]
    split
    · exact hmsg
    · exact hmsg
  · unfold summarizeResults
    rw [if_neg (by simp [hne])]
    split
    · rfl
    · rfl

/-- Witness for C5's amended theorem at the concrete mixed directory. -/
theorem parse_failure_handling_witness :
    processLog mixedDir { base := "bad", parsed := ParseResult.fail } = none ∧
    ("Error processing " ++ "bad" ++ ".log") ∈ (summarizeResults mixedDir).errors ∧
    (summarizeResults mixedDir).exitCode = 0 ∧
    (mixedDir.logs.filterMap (processLog mixedDir)).length =
      (mixedDir.logs.filter fun l => !l.parsed.isFail).length :=
  parse_failure_handling mixedDir _ (List.mem_cons_self _ _) rfl

/-! ## Claim C10: at least one log, all unparseable -/

/-- Claim C10: when the glob finds at least one log but every log fails to
parse, the summarizer prints `No valid data found in log files.` and exits
0, not 1. -/
theorem all_logs_fail_no_valid_data (d : ResultsDir) (hne : d.logs ≠ [])
    (hall : ∀ lf ∈ d.logs, lf.parsed = ParseResult.fail) :
    (summarizeResults d).output = SummOutput.noValidData ∧
    summOutputText (summarizeResults d).output =
      "No valid data found in log files." ∧
    (summarizeResults d).exitCode = 0 := by
  have hne' : d.logs.isEmpty = false := by
    cases hl : d.logs with
    | nil => exact absurd hl hne
    | cons a l => rfl
  have hempty : (d.logs.filterMap (processLog d)).isEmpty = true := by
    have h : d.logs.filterMap (processLog d) = [] := by
      rw [List.filterMap_eq_nil_iff]
      intro lf hlf
      simp [processLog, hall lf hlf]
    rw [h]
    rfl
  unfold summarizeResults
  rw [if_neg (by simp [hne']), if_pos hempty]
  exact ⟨rfl, rfl, rfl⟩

/-- Witness for C10 at the concrete directory whose single log is
unparseable. -/
theorem all_logs_fail_no_valid_data_witness :
    (summarizeResults allFailDir).output = SummOutput.noValidData ∧
    summOutputText (summarizeResults allFailDir).output =
      "No valid data found in log files." ∧
    (summarizeResults allFailDir).exitCode = 0 :=
  all_logs_fail_no_valid_data allFailDir (by decide)
    (fun lf h => by
      simp only [allFailDir] at h
      rw [List.mem_singleton.mp h])

end CamTests
